import Mathlib

/-!
Verification of the HL_LIMIT_CHASE_V2 limit-chase engine.

Shallow embedding of `limit_chase.py` (the `LimitChaser` state machine and
`LiveExchangeClient.poll_fill`), of the throttled consumer loop of
`limit_chase_usage.py`, and of the response handling of
`executor.py::get_order_status`.

Prices and sizes are modelled as exact rationals and timestamps as integers:
the Python code performs the very arithmetic written here, with no overflow
or wrap-around concerns at the magnitudes involved.  The awaited exchange
calls (`place_limit`, `poll_fill`, `cancel`) are modelled by an environment
record that supplies the venue's responses for one processing step, and every
step additionally records the ordered list of exchange calls it performed, so
that temporal claims about call ordering can be stated and proved.
-/

namespace LimitChase

/-- Quote dataclass of `limit_chase.py`: one best-bid/ask snapshot. -/
structure Quote where
  ts_ms : ℤ
  bid_px : ℚ
  bid_sz : ℚ
  ask_px : ℚ
  ask_sz : ℚ
  deriving DecidableEq

/-- Constructor parameters of `LimitChaser.__init__`, immutable for the
engine's lifetime. -/
structure ChaseConfig where
  tick_size : ℚ
  side : String
  order_size : ℚ
  post_only : Bool
  tolerance_ticks : ℚ
  max_age_ms : ℤ
  max_chase_ticks : ℚ
  deriving DecidableEq

/-- Mutable order-tracking fields of `LimitChaser`: `order_id`, `order_px`,
`start_px`, `placed_ts`. -/
structure ChaseState where
  order_id : Option String
  order_px : Option ℚ
  start_px : Option ℚ
  placed_ts : Option ℤ
  deriving DecidableEq

/-- State produced by `LimitChaser._reset` (all four fields set to None);
this is also the initial Idle state established by `__init__`. -/
def _reset : ChaseState :=
  { order_id := none, order_px := none, start_px := none, placed_ts := none }

/-- Function `LimitChaser._round_to_tick`:
`math.floor(px / self.tick_size) * self.tick_size`. -/
def _round_to_tick (tick_size px : ℚ) : ℚ :=
  ⌊px / tick_size⌋ * tick_size

/-- Target price computed at the top of `on_quote`: best bid for side
`"buy"`, best ask otherwise, floor-rounded to the tick. -/
def target_px (cfg : ChaseConfig) (q : Quote) : ℚ :=
  _round_to_tick cfg.tick_size (if cfg.side == "buy" then q.bid_px else q.ask_px)

/-- Drift, in ticks, of the latest target from the resting order's price
(`abs(target_px - self.order_px) / self.tick_size`).  A missing `order_px`
is read as 0, which never happens on states reachable while Resting. -/
def drift_ticks (cfg : ChaseConfig) (s : ChaseState) (q : Quote) : ℚ :=
  |target_px cfg q - s.order_px.getD 0| / cfg.tick_size

/-- Age of the resting order (`now - self.placed_ts`). -/
def age_ms (s : ChaseState) (q : Quote) : ℤ :=
  q.ts_ms - s.placed_ts.getD 0

/-- Total chase distance, in ticks, of the latest target from the original
entry price (`abs(target_px - self.start_px) / self.tick_size`). -/
def total_chase_ticks (cfg : ChaseConfig) (s : ChaseState) (q : Quote) : ℚ :=
  |target_px cfg q - s.start_px.getD 0| / cfg.tick_size

/-- One awaited exchange call issued by the engine, as observed at the
`LiveExchangeClient` interface. -/
inductive ExCall where
  | place (side : String) (px : ℚ) (sz : ℚ) (post_only : Bool)
  | cancel (oid : String)
  | poll (oid : String)
  deriving DecidableEq

/-- Venue responses for a single `on_quote` step: the order id that
`place_limit` would return if called (None models a failed placement), and
the boolean `poll_fill` would return if called. -/
structure Env where
  placeResult : Option String
  fillResult : Bool
  deriving DecidableEq

/-- Result of one `on_quote` step: the updated engine state, the returned
outcome (None, "filled" or "aborted"), and the exchange calls made, in
order. -/
structure StepResult where
  state : ChaseState
  outcome : Option String
  calls : List ExCall
  deriving DecidableEq

/-- Idle branch of `on_quote` (`self.order_id is None`): record
`start_px = order_px = target`, place a limit order, record `placed_ts`.
All four fields are assigned regardless of whether placement succeeded. -/
def idle_step (cfg : ChaseConfig) (q : Quote) (env : Env) : StepResult :=
  { state := { order_id := env.placeResult,
               order_px := some (target_px cfg q),
               start_px := some (target_px cfg q),
               placed_ts := some q.ts_ms },
    outcome := none,
    calls := [ExCall.place cfg.side (target_px cfg q) cfg.order_size cfg.post_only] }

/-- Resting branch of `on_quote`: poll for a fill, then abort, refresh or
hold exactly as the Python code orders those checks. -/
def resting_step (cfg : ChaseConfig) (s : ChaseState) (q : Quote) (env : Env)
    (oid : String) : StepResult :=
  if env.fillResult then
    { state := _reset, outcome := some ("filled"), calls := [ExCall.poll oid] }
  else if total_chase_ticks cfg s q > cfg.max_chase_ticks then
    { state := _reset, outcome := some ("aborted"),
      calls := [ExCall.poll oid, ExCall.cancel oid] }
  else if drift_ticks cfg s q ≥ cfg.tolerance_ticks ∨ age_ms s q ≥ cfg.max_age_ms then
    { state := { order_id := env.placeResult,
                 order_px := some (target_px cfg q),
                 start_px := s.start_px,
                 placed_ts := some q.ts_ms },
      outcome := none,
      calls := [ExCall.poll oid, ExCall.cancel oid,
                ExCall.place cfg.side (target_px cfg q) cfg.order_size cfg.post_only] }
  else
    { state := s, outcome := none, calls := [ExCall.poll oid] }

/-- Method `LimitChaser.on_quote`, one processing step. -/
def on_quote (cfg : ChaseConfig) (s : ChaseState) (q : Quote) (env : Env) :
    StepResult :=
  match s.order_id with
  | none => idle_step cfg q env
  | some oid => resting_step cfg s q env oid

/-- Consumer loop of `limit_chase_usage.run`: dequeue quotes, skip any quote
arriving less than `refresh_interval_ms` after `last_check`, otherwise
dispatch it to `on_quote`, update `last_check`, and stop on a terminal
outcome.  Returns the timestamps dispatched to the engine, the final engine
state and the final outcome. -/
def consumer (cfg : ChaseConfig) (refresh_interval_ms : ℤ) :
    ℤ → ChaseState → List (Quote × Env) → List ℤ × ChaseState × Option String
  | _, s, [] => ([], s, none)
  | last_check, s, (q, env) :: rest =>
      if q.ts_ms - last_check < refresh_interval_ms then
        consumer cfg refresh_interval_ms last_check s rest
      else
        let r := on_quote cfg s q env
        if r.outcome = some ("filled") ∨ r.outcome = some ("aborted") then
          ([q.ts_ms], r.state, r.outcome)
        else
          match consumer cfg refresh_interval_ms q.ts_ms r.state rest with
          | (ds, s', out) => (q.ts_ms :: ds, s', out)

/-- Trace predicate: every `place` call happens either while the step began
Idle, or after a `cancel` earlier in the same call list. -/
def placeOnlyWhenIdleOrCanceled (idle canceled : Bool) : List ExCall → Bool
  | [] => true
  | ExCall.place _ _ _ _ :: rest =>
      (idle || canceled) && placeOnlyWhenIdleOrCanceled idle canceled rest
  | ExCall.cancel _ :: rest => placeOnlyWhenIdleOrCanceled idle true rest
  | ExCall.poll _ :: rest => placeOnlyWhenIdleOrCanceled idle canceled rest

/-- Consistency predicate of the spec's Resting state: if an order id is
tracked, the other three fields are all set. -/
def Consistent (s : ChaseState) : Prop :=
  s.order_id.isSome = true →
    s.order_px.isSome = true ∧ s.start_px.isSome = true ∧ s.placed_ts.isSome = true

/-- The "order" sub-object of an order-status response; only its "status"
entry is read by `poll_fill`. -/
structure OrderField where
  status : Option String
  deriving DecidableEq

/-- Order-status response as consumed by `LiveExchangeClient.poll_fill`: an
optional top-level "status" entry and an optional "order" sub-object.  A
missing entry and Python None are both `none`. -/
structure OrderStatusResponse where
  status : Option String
  order : Option OrderField
  deriving DecidableEq

/-- Python `a or b` on an optional string: None and the empty string are
falsy. -/
def pyOr (a b : Option String) : Option String :=
  match a with
  | none => b
  | some s => if s = "" then b else some s

/-- Status string extracted by `poll_fill`:
`order_status.get("status") or (order_status.get("order") or ...).get("status")`. -/
def extractedStatus (r : OrderStatusResponse) : Option String :=
  pyOr r.status (match r.order with
    | none => none
    | some o => o.status)

/-- Method `LiveExchangeClient.poll_fill`, with the awaited
`executor.get_order_status` response passed in (`none` models the executor
catching an exception and returning None). -/
def poll_fill (resp : Option OrderStatusResponse) : Bool :=
  match resp with
  | none => false
  | some r => extractedStatus r == some ("filled")

/-- The `is_buy` flag `LiveExchangeClient.place_limit` derives from its
`side` argument: `side == "buy"`. -/
def place_limit_is_buy (side : String) : Bool :=
  side == "buy"

/-- Configuration of the spec's worked scenario and of
`limit_chase_usage.py`: tick 0.5, side buy, tolerance 1 tick, max age
5000 ms, max chase 10 ticks. -/
def cfgS : ChaseConfig :=
  { tick_size := 1 / 2, side := "buy", order_size := 2 / 10000, post_only := true,
    tolerance_ticks := 1, max_age_ms := 5000, max_chase_ticks := 10 }

/-- First scenario quote: bid 100.3. -/
def qS1 : Quote :=
  { ts_ms := 0, bid_px := 1003 / 10, bid_sz := 1, ask_px := 1004 / 10, ask_sz := 1 }

/-- Second scenario quote, 200 ms later: bid 100.7. -/
def qS2 : Quote :=
  { ts_ms := 200, bid_px := 1007 / 10, bid_sz := 1, ask_px := 1008 / 10, ask_sz := 1 }

/-- Third scenario quote: bid 106.0. -/
def qS3 : Quote :=
  { ts_ms := 400, bid_px := 106, bid_sz := 1, ask_px := 107, ask_sz := 1 }

/-- Venue responses for the scenario steps: placements succeed, polls report
not filled. -/
def envS1 : Env := { placeResult := some ("1"), fillResult := false }

/-- Venue responses for the second scenario step. -/
def envS2 : Env := { placeResult := some ("2"), fillResult := false }

/-- Venue responses for the third scenario step. -/
def envS3 : Env := { placeResult := some ("3"), fillResult := false }

/-- Venue responses where the placement fails and polls report not filled. -/
def envFail : Env := { placeResult := none, fillResult := false }

/-- Engine state after the first scenario step. -/
def sS1 : ChaseState := (on_quote cfgS _reset qS1 envS1).state

/-- Engine state after the second scenario step. -/
def sS2 : ChaseState := (on_quote cfgS sS1 qS2 envS2).state

/-- A well-formed Resting state: order "1" resting at 100.0 since entry at
100.0, placed at t = 0. -/
def sR1 : ChaseState :=
  { order_id := some ("1"), order_px := some 100, start_px := some 100,
    placed_ts := some 0 }

/-- A well-formed Resting state after one refresh: order "2" at 100.5,
entry anchor still 100.0. -/
def sR2 : ChaseState :=
  { order_id := some ("2"), order_px := some (201 / 2), start_px := some 100,
    placed_ts := some 200 }

/-- Quote used only to carry a timestamp through the dispatcher model. -/
def quoteAt (t : ℤ) : Quote :=
  { ts_ms := t, bid_px := 100, bid_sz := 1, ask_px := 101, ask_sz := 1 }

/-- Dispatcher feed of the throttling example: quotes at 0, 100, 400,
600 ms, placements succeeding and no fills. -/
def c1Feed : List (Quote × Env) :=
  [(quoteAt 0, envS1), (quoteAt 100, envS1), (quoteAt 400, envS1), (quoteAt 600, envS1)]

/-- Scenario configuration with a side string that is not exactly "buy". -/
def cfgBUY : ChaseConfig :=
  { cfgS with side := "BUY" }

/-- Unfolding lemma: an Idle engine takes the placement branch. -/
theorem on_quote_none (cfg : ChaseConfig) (s : ChaseState) (q : Quote) (env : Env)
    (h : s.order_id = none) : on_quote cfg s q env = idle_step cfg q env := by
  unfold on_quote
  rw [h]

/-- Unfolding lemma: a Resting engine takes the poll/abort/refresh branch. -/
theorem on_quote_some (cfg : ChaseConfig) (s : ChaseState) (q : Quote) (env : Env)
    (oid : String) (h : s.order_id = some oid) :
    on_quote cfg s q env = resting_step cfg s q env oid := by
  unfold on_quote
  rw [h]

/-- Reduction of the resting branch when the poll reports no fill and the
abort threshold is exceeded. -/
theorem resting_step_abort (cfg : ChaseConfig) (s : ChaseState) (q : Quote)
    (env : Env) (oid : String) (hf : env.fillResult = false)
    (ha : total_chase_ticks cfg s q > cfg.max_chase_ticks) :
    resting_step cfg s q env oid =
      { state := _reset, outcome := some ("aborted"),
        calls := [ExCall.poll oid, ExCall.cancel oid] } := by
  have hf' : ¬ env.fillResult = true := by
    rw [hf]
    exact Bool.false_ne_true
  unfold resting_step
  rw [if_neg hf', if_pos ha]

/-- Reduction of the resting branch when the poll reports no fill, the abort
threshold is not exceeded, and the refresh condition holds. -/
theorem resting_step_refresh (cfg : ChaseConfig) (s : ChaseState) (q : Quote)
    (env : Env) (oid : String) (hf : env.fillResult = false)
    (ha : ¬ total_chase_ticks cfg s q > cfg.max_chase_ticks)
    (hr : drift_ticks cfg s q ≥ cfg.tolerance_ticks ∨ age_ms s q ≥ cfg.max_age_ms) :
    resting_step cfg s q env oid =
      { state := { order_id := env.placeResult,
                   order_px := some (target_px cfg q),
                   start_px := s.start_px,
                   placed_ts := some q.ts_ms },
        outcome := none,
        calls := [ExCall.poll oid, ExCall.cancel oid,
                  ExCall.place cfg.side (target_px cfg q) cfg.order_size cfg.post_only] } := by
  have hf' : ¬ env.fillResult = true := by
    rw [hf]
    exact Bool.false_ne_true
  unfold resting_step
  rw [if_neg hf', if_neg ha, if_pos hr]

/-- Evaluation helper: the floor of a concrete rational, certified by its
two defining inequalities. -/
theorem floor_eval (r : ℚ) (n : ℤ) (h1 : (n : ℚ) ≤ r) (h2 : r < n + 1) :
    (⌊r⌋ : ℤ) = n :=
  Int.floor_eq_iff.mpr ⟨h1, h2⟩

/-- Target of the first scenario quote: bid 100.3 floors to 100.0. -/
theorem target_qS1 : target_px cfgS qS1 = 100 := by
  have h : (⌊((1003 : ℚ) / 10) / (1 / 2)⌋ : ℤ) = 200 :=
    floor_eval _ 200 (by norm_num) (by norm_num)
  simp only [target_px, _round_to_tick, cfgS, qS1, beq_self_eq_true, if_true]
  rw [h]
  norm_num

/-- Target of the second scenario quote: bid 100.7 floors to 100.5. -/
theorem target_qS2 : target_px cfgS qS2 = 201 / 2 := by
  have h : (⌊((1007 : ℚ) / 10) / (1 / 2)⌋ : ℤ) = 201 :=
    floor_eval _ 201 (by norm_num) (by norm_num)
  simp only [target_px, _round_to_tick, cfgS, qS2, beq_self_eq_true, if_true]
  rw [h]
  norm_num

/-- Target of the third scenario quote: bid 106.0 floors to itself. -/
theorem target_qS3 : target_px cfgS qS3 = 106 := by
  have h : (⌊(106 : ℚ) / (1 / 2)⌋ : ℤ) = 212 :=
    floor_eval _ 212 (by norm_num) (by norm_num)
  simp only [target_px, _round_to_tick, cfgS, qS3, beq_self_eq_true, if_true]
  rw [h]
  norm_num

/-- Drift of the 100.5 target from the order resting at 100.0: one tick. -/
theorem drift_sR1_qS2 : drift_ticks cfgS sR1 qS2 = 1 := by
  unfold drift_ticks
  rw [target_qS2]
  simp only [sR1, cfgS, Option.getD_some]
  rw [show ((201 : ℚ) / 2 - 100) = 1 / 2 by norm_num,
    abs_of_nonneg (by norm_num : (0 : ℚ) ≤ 1 / 2)]
  norm_num

/-- Total chase of the 100.5 target from the 100.0 entry: one tick. -/
theorem total_sR1_qS2 : total_chase_ticks cfgS sR1 qS2 = 1 := by
  unfold total_chase_ticks
  rw [target_qS2]
  simp only [sR1, cfgS, Option.getD_some]
  rw [show ((201 : ℚ) / 2 - 100) = 1 / 2 by norm_num,
    abs_of_nonneg (by norm_num : (0 : ℚ) ≤ 1 / 2)]
  norm_num

/-- Drift of the 106.0 target from the order resting at 100.5: 11 ticks. -/
theorem drift_sR2_qS3 : drift_ticks cfgS sR2 qS3 = 11 := by
  unfold drift_ticks
  rw [target_qS3]
  simp only [sR2, cfgS, Option.getD_some]
  rw [show ((106 : ℚ) - 201 / 2) = 11 / 2 by norm_num,
    abs_of_nonneg (by norm_num : (0 : ℚ) ≤ 11 / 2)]
  norm_num

/-- Total chase of the 106.0 target from the 100.0 entry: 12 ticks. -/
theorem total_sR2_qS3 : total_chase_ticks cfgS sR2 qS3 = 12 := by
  unfold total_chase_ticks
  rw [target_qS3]
  simp only [sR2, cfgS, Option.getD_some]
  rw [show ((106 : ℚ) - 100) = 6 by norm_num,
    abs_of_nonneg (by norm_num : (0 : ℚ) ≤ 6)]
  norm_num

/-- C1 counterexample: with `last_check` initialised to 0 and
`refresh_interval_ms = 500`, the quote at timestamp 0 is itself discarded
(0 - 0 < 500), so the dispatched sequence is not the claimed [0, 600]. -/
theorem c1_throttle_counterexample :
    (consumer cfgS 500 0 _reset c1Feed).1 ≠ [0, 600] := by
  decide

/-- C1 (amended): with `last_check` initialised to 0 and
`refresh_interval_ms = 500`, fed quotes at timestamps [0, 100, 400, 600],
exactly the quote at timestamp 600 is dispatched to the engine; the quotes
at 0, 100 and 400 are discarded. -/
theorem c1_throttle_dispatched :
    (consumer cfgS 500 0 _reset c1Feed).1 = [600] := by
  decide

/-- C2 counterexample: from Idle, a placement that fails (`place_limit`
returns None) ends the step with `order_id = None` while `order_px`,
`start_px` and `placed_ts` all keep the attempted values — a partial state
observable after `on_quote` returns. -/
theorem c2_partial_state_counterexample :
    (on_quote cfgS _reset qS1 envFail).state.order_id = none ∧
    (on_quote cfgS _reset qS1 envFail).state.order_px ≠ none ∧
    (on_quote cfgS _reset qS1 envFail).state.start_px ≠ none ∧
    (on_quote cfgS _reset qS1 envFail).state.placed_ts ≠ none := by
  decide

/-- C2 (amended): the half of the consistency invariant the code does
maintain — whenever `order_id` is present, `order_px`, `start_px` and
`placed_ts` are all set — is preserved by every `on_quote` step. -/
theorem c2_resting_consistency_preserved (cfg : ChaseConfig) (s : ChaseState)
    (q : Quote) (env : Env) (h : Consistent s) :
    Consistent (on_quote cfg s q env).state := by
  cases hid : s.order_id with
  | none =>
      rw [on_quote_none cfg s q env hid]
      intro _
      exact ⟨rfl, rfl, rfl⟩
  | some oid =>
      have hs := h (by rw [hid]; rfl)
      rw [on_quote_some cfg s q env oid hid]
      unfold resting_step
      split
      · intro hc
        exact absurd hc Bool.false_ne_true
      · split
        · intro hc
          exact absurd hc Bool.false_ne_true
        · split
          · intro _
            exact ⟨rfl, hs.2.1, rfl⟩
          · exact h

/-- C2 witness: the invariant holds of the Idle state and is carried through
a step whose placement fails. -/
theorem c2_resting_consistency_preserved_witness :
    Consistent (on_quote cfgS _reset qS1 envFail).state :=
  c2_resting_consistency_preserved cfgS _reset qS1 envFail
    (fun hc => absurd hc Bool.false_ne_true)

/-- C3: in the Resting state with the order not filled, when both the abort
condition and the refresh condition hold, `on_quote` cancels the resting
order, resets the state, returns "aborted", and makes no `place_limit`
call in that step. -/
theorem c3_abort_precedence (cfg : ChaseConfig) (s : ChaseState) (q : Quote)
    (env : Env) (oid : String) (hid : s.order_id = some oid)
    (hfill : env.fillResult = false)
    (habort : total_chase_ticks cfg s q > cfg.max_chase_ticks)
    (hrefresh : drift_ticks cfg s q ≥ cfg.tolerance_ticks ∨
      age_ms s q ≥ cfg.max_age_ms) :
    (on_quote cfg s q env).outcome = some ("aborted") ∧
    (on_quote cfg s q env).state = _reset ∧
    (on_quote cfg s q env).calls = [ExCall.poll oid, ExCall.cancel oid] := by
  rw [on_quote_some cfg s q env oid hid, resting_step_abort cfg s q env oid hfill habort]
  exact ⟨rfl, rfl, rfl⟩

/-- C3 witness: concrete Resting state at 100.5 anchored at 100.0, quote with
bid 106.0 — abort (12 > 10 ticks) and refresh (drift 11 ≥ 1) both hold. -/
theorem c3_abort_precedence_witness :
    (on_quote cfgS sR2 qS3 envS3).outcome = some ("aborted") ∧
    (on_quote cfgS sR2 qS3 envS3).state = _reset ∧
    (on_quote cfgS sR2 qS3 envS3).calls =
      [ExCall.poll ("2"), ExCall.cancel ("2")] :=
  c3_abort_precedence cfgS sR2 qS3 envS3 ("2") rfl rfl
    (by rw [total_sR2_qS3]; norm_num [cfgS])
    (Or.inl (by rw [drift_sR2_qS3]; norm_num [cfgS]))

/-- C4: the spec's worked scenario.  Quote1 (bid 100.3) places at 100.0 with
start = order = 100.0; Quote2 at +200 ms (bid 100.7, unfilled) computes
target 100.5 and drift 1, refreshes (cancel then place at 100.5) keeping
start at 100.0; Quote3 (bid 106.0, unfilled) computes total chase 12 > 10,
cancels and returns "aborted". -/
theorem c4_chase_scenario :
    (on_quote cfgS _reset qS1 envS1).state =
      { order_id := some ("1"), order_px := some 100, start_px := some 100,
        placed_ts := some 0 } ∧
    (on_quote cfgS _reset qS1 envS1).outcome = none ∧
    target_px cfgS qS2 = 201 / 2 ∧
    drift_ticks cfgS sS1 qS2 = 1 ∧
    (on_quote cfgS sS1 qS2 envS2).calls =
      [ExCall.poll ("1"), ExCall.cancel ("1"),
       ExCall.place ("buy") (201 / 2) (2 / 10000) true] ∧
    (on_quote cfgS sS1 qS2 envS2).state =
      { order_id := some ("2"), order_px := some (201 / 2), start_px := some 100,
        placed_ts := some 200 } ∧
    (on_quote cfgS sS1 qS2 envS2).outcome = none ∧
    total_chase_ticks cfgS sS2 qS3 = 12 ∧
    (on_quote cfgS sS2 qS3 envS3).outcome = some ("aborted") ∧
    (on_quote cfgS sS2 qS3 envS3).calls = [ExCall.poll ("2"), ExCall.cancel ("2")] ∧
    (on_quote cfgS sS2 qS3 envS3).state = _reset := by
  have hA12 : ¬ total_chase_ticks cfgS sR1 qS2 > cfgS.max_chase_ticks := by
    rw [total_sR1_qS2]
    norm_num [cfgS]
  have hR12 : drift_ticks cfgS sR1 qS2 ≥ cfgS.tolerance_ticks ∨
      age_ms sR1 qS2 ≥ cfgS.max_age_ms :=
    Or.inl (by rw [drift_sR1_qS2]; norm_num [cfgS])
  have hA23 : total_chase_ticks cfgS sR2 qS3 > cfgS.max_chase_ticks := by
    rw [total_sR2_qS3]
    norm_num [cfgS]
  have hstep1 : on_quote cfgS _reset qS1 envS1 =
      { state := sR1, outcome := none,
        calls := [ExCall.place ("buy") 100 (2 / 10000) true] } := by
    rw [on_quote_none cfgS _reset qS1 envS1 rfl]
    unfold idle_step
    rw [target_qS1]
    rfl
  have hs1 : sS1 = sR1 := by
    unfold sS1
    rw [hstep1]
  have hstep2 : on_quote cfgS sR1 qS2 envS2 =
      { state := sR2, outcome := none,
        calls := [ExCall.poll ("1"), ExCall.cancel ("1"),
                  ExCall.place ("buy") (201 / 2) (2 / 10000) true] } := by
    rw [on_quote_some cfgS sR1 qS2 envS2 ("1") rfl,
      resting_step_refresh cfgS sR1 qS2 envS2 ("1") rfl hA12 hR12, target_qS2]
    rfl
  have hs2 : sS2 = sR2 := by
    unfold sS2
    rw [hs1, hstep2]
  have hstep3 : on_quote cfgS sR2 qS3 envS3 =
      { state := _reset, outcome := some ("aborted"),
        calls := [ExCall.poll ("2"), ExCall.cancel ("2")] } := by
    rw [on_quote_some cfgS sR2 qS3 envS3 ("2") rfl,
      resting_step_abort cfgS sR2 qS3 envS3 ("2") rfl hA23]
  refine ⟨?_, ?_, target_qS2, ?_, ?_, ?_, ?_, ?_, ?_, ?_, ?_⟩
  · rw [hstep1]
    rfl
  · rw [hstep1]
  · rw [hs1, drift_sR1_qS2]
  · rw [hs1, hstep2]
  · rw [hs1, hstep2]
    rfl
  · rw [hs1, hstep2]
  · rw [hs2, total_sR2_qS3]
  · rw [hs2, hstep3]
  · rw [hs2, hstep3]
  · rw [hs2, hstep3]

/-- C5: a Resting step that refreshes (order unfilled, abort threshold not
exceeded, drift or age threshold reached) cancels the old order, places a
new one at the target price with the same side, size and post-only flag,
sets `order_px` to the target and `placed_ts` to the quote timestamp, leaves
`start_px` unchanged, and returns None. -/
theorem c5_refresh_updates (cfg : ChaseConfig) (s : ChaseState) (q : Quote)
    (env : Env) (oid : String) (hid : s.order_id = some oid)
    (hfill : env.fillResult = false)
    (habort : ¬ total_chase_ticks cfg s q > cfg.max_chase_ticks)
    (hrefresh : drift_ticks cfg s q ≥ cfg.tolerance_ticks ∨
      age_ms s q ≥ cfg.max_age_ms) :
    (on_quote cfg s q env).calls =
      [ExCall.poll oid, ExCall.cancel oid,
       ExCall.place cfg.side (target_px cfg q) cfg.order_size cfg.post_only] ∧
    (on_quote cfg s q env).state.order_px = some (target_px cfg q) ∧
    (on_quote cfg s q env).state.placed_ts = some q.ts_ms ∧
    (on_quote cfg s q env).state.start_px = s.start_px ∧
    (on_quote cfg s q env).state.order_id = env.placeResult ∧
    (on_quote cfg s q env).outcome = none := by
  rw [on_quote_some cfg s q env oid hid,
    resting_step_refresh cfg s q env oid hfill habort hrefresh]
  exact ⟨rfl, rfl, rfl, rfl, rfl, rfl⟩

/-- C5 witness: resting at 100.0 since t = 0, quote at t = 200 with bid
100.7 — drift 1 ≥ tolerance 1, total chase 1 ≤ 10. -/
theorem c5_refresh_updates_witness :
    (on_quote cfgS sR1 qS2 envS2).calls =
      [ExCall.poll ("1"), ExCall.cancel ("1"),
       ExCall.place cfgS.side (target_px cfgS qS2) cfgS.order_size cfgS.post_only] ∧
    (on_quote cfgS sR1 qS2 envS2).state.order_px = some (target_px cfgS qS2) ∧
    (on_quote cfgS sR1 qS2 envS2).state.placed_ts = some qS2.ts_ms ∧
    (on_quote cfgS sR1 qS2 envS2).state.start_px = sR1.start_px ∧
    (on_quote cfgS sR1 qS2 envS2).state.order_id = envS2.placeResult ∧
    (on_quote cfgS sR1 qS2 envS2).outcome = none :=
  c5_refresh_updates cfgS sR1 qS2 envS2 ("1") rfl rfl
    (by rw [total_sR1_qS2]; norm_num [cfgS])
    (Or.inl (by rw [drift_sR1_qS2]; norm_num [cfgS]))

/-- C6: for positive price and tick size, `_round_to_tick` equals
floor(price / tick_size) * tick_size, and it is idempotent at every
price. -/
theorem c6_round_to_tick_spec (tick_size px : ℚ) (ht : 0 < tick_size)
    (hp : 0 < px) :
    _round_to_tick tick_size px = ⌊px / tick_size⌋ * tick_size ∧
    ∀ p : ℚ, _round_to_tick tick_size (_round_to_tick tick_size p) =
      _round_to_tick tick_size p := by
  refine ⟨rfl, fun p => ?_⟩
  unfold _round_to_tick
  rw [mul_div_cancel_right₀ _ (ne_of_gt ht), Int.floor_intCast]

/-- C6 witness: tick 0.5 and price 100.3 — the rounding formula and
idempotence evaluated at 100.3. -/
theorem c6_round_to_tick_spec_witness :
    _round_to_tick (1 / 2) (1003 / 10) = ⌊(1003 / 10 : ℚ) / (1 / 2)⌋ * (1 / 2) ∧
    _round_to_tick (1 / 2) (_round_to_tick (1 / 2) (1003 / 10)) =
      _round_to_tick (1 / 2) (1003 / 10) := by
  have h := c6_round_to_tick_spec (1 / 2) (1003 / 10) (by norm_num) (by norm_num)
  exact ⟨h.1, h.2 (1003 / 10)⟩

/-- C7: in every single `on_quote` step, each `place_limit` call happens
either with the engine Idle at the start of the step or after a `cancel` of
the resting order earlier in the same step. -/
theorem c7_place_only_idle_or_after_cancel (cfg : ChaseConfig) (s : ChaseState)
    (q : Quote) (env : Env) :
    placeOnlyWhenIdleOrCanceled s.order_id.isNone false
      (on_quote cfg s q env).calls = true := by
  cases hid : s.order_id with
  | none =>
      rw [on_quote_none cfg s q env hid]
      rfl
  | some oid =>
      rw [on_quote_some cfg s q env oid hid]
      unfold resting_step
      split
      · rfl
      · split
        · rfl
        · split
          · rfl
          · rfl

/-- C8: `poll_fill` returns True exactly when a response was obtained and
the status it extracts is "filled"; a failed query (None) or a response
with no recognizable status yields False. -/
theorem c8_poll_fill_filled_iff (resp : Option OrderStatusResponse) :
    poll_fill resp = true ↔
      ∃ r, resp = some r ∧ extractedStatus r = some ("filled") := by
  cases resp with
  | none =>
      simp [poll_fill]
  | some r =>
      simp [poll_fill]

/-- C9: when a refresh step's re-placement fails after the cancel, the step
ends with `order_id = None` and outcome None, and the next processed quote
re-enters the Idle placement branch, overwriting `start_px` with the new
target price — re-anchoring the abort distance. -/
theorem c9_failed_refresh_reanchors (cfg : ChaseConfig) (s : ChaseState)
    (q q2 : Quote) (env env2 : Env) (oid : String)
    (hid : s.order_id = some oid) (hfill : env.fillResult = false)
    (habort : ¬ total_chase_ticks cfg s q > cfg.max_chase_ticks)
    (hrefresh : drift_ticks cfg s q ≥ cfg.tolerance_ticks ∨
      age_ms s q ≥ cfg.max_age_ms)
    (hplace : env.placeResult = none) :
    (on_quote cfg s q env).state.order_id = none ∧
    (on_quote cfg s q env).outcome = none ∧
    (on_quote cfg (on_quote cfg s q env).state q2 env2).state.start_px =
      some (target_px cfg q2) ∧
    (on_quote cfg (on_quote cfg s q env).state q2 env2).calls =
      [ExCall.place cfg.side (target_px cfg q2) cfg.order_size cfg.post_only] := by
  have h1 : on_quote cfg s q env =
      { state := { order_id := none,
                   order_px := some (target_px cfg q),
                   start_px := s.start_px,
                   placed_ts := some q.ts_ms },
        outcome := none,
        calls := [ExCall.poll oid, ExCall.cancel oid,
                  ExCall.place cfg.side (target_px cfg q) cfg.order_size cfg.post_only] } := by
    rw [on_quote_some cfg s q env oid hid,
      resting_step_refresh cfg s q env oid hfill habort hrefresh, hplace]
  rw [h1]
  exact ⟨rfl, rfl, rfl, rfl⟩

/-- C9 witness: resting at 100.0, refresh triggered by the bid-100.7 quote
but the placement fails; the quote with bid 106.0 then re-enters the Idle
branch and re-anchors `start_px` to 106.0. -/
theorem c9_failed_refresh_reanchors_witness :
    (on_quote cfgS sR1 qS2 envFail).state.order_id = none ∧
    (on_quote cfgS sR1 qS2 envFail).outcome = none ∧
    (on_quote cfgS (on_quote cfgS sR1 qS2 envFail).state qS3 envS3).state.start_px =
      some (target_px cfgS qS3) ∧
    (on_quote cfgS (on_quote cfgS sR1 qS2 envFail).state qS3 envS3).calls =
      [ExCall.place cfgS.side (target_px cfgS qS3) cfgS.order_size cfgS.post_only] :=
  c9_failed_refresh_reanchors cfgS sR1 qS2 qS3 envFail envS3 ("1") rfl rfl
    (by rw [total_sR1_qS2]; norm_num [cfgS])
    (Or.inl (by rw [drift_sR1_qS2]; norm_num [cfgS])) rfl

/-- C10: the side string is never validated — for any side other than the
exact string "buy", the engine targets the ask price and the gateway's
`is_buy` flag is False, i.e. the behaviour is identical to side "sell". -/
theorem c10_side_not_validated (cfg : ChaseConfig) (q : Quote)
    (h : cfg.side ≠ "buy") :
    target_px cfg q = _round_to_tick cfg.tick_size q.ask_px ∧
    place_limit_is_buy cfg.side = false ∧
    place_limit_is_buy cfg.side = place_limit_is_buy ("sell") := by
  have hb : (cfg.side == "buy") = false := by
    simp only [beq_eq_false_iff_ne, ne_eq]
    exact h
  refine ⟨?_, hb, ?_⟩
  · unfold target_px
    rw [hb]
    rfl
  · rw [place_limit_is_buy, hb]
    rfl

/-- C10 witness: the upper-case side "BUY" targets the ask and produces a
sell order. -/
theorem c10_side_not_validated_witness :
    target_px cfgBUY qS1 = _round_to_tick cfgBUY.tick_size qS1.ask_px ∧
    place_limit_is_buy cfgBUY.side = false ∧
    place_limit_is_buy cfgBUY.side = place_limit_is_buy ("sell") :=
  c10_side_not_validated cfgBUY qS1 (by decide)

end LimitChase
